import Mathlib

/-!
Shallow embedding of the unwrap-log crate (src/lib.rs).

The crate provides three extension traits over optional and fallible values:
OptionExt over Option<T>, ResultExt over Result<T, E> with E renderable, and
ResultExtNoDbg over Result<T, E> with no rendering requirement.  Each trait has
three operations (default fallback, closure fallback, explicit fallback).  On
the present/success path the contained value is returned; on the absent/failure
path a warn-level record is submitted to the logging facility and a substitute
value is produced.

Modelling choices:
- each operation returns its value paired with the list of log records it
  emitted, so logging is an explicit observable output;
- the call-site location captured by the caller-tracking attribute is an
  explicit parameter of every operation;
- the FnOnce supplier of the closure fallback is modelled as a state-passing
  function so that the number of invocations is observable in the final state;
- the Debug rendering capability of the error type is an explicit function
  from the error type to String;
- the Default bound on the payload type is modelled with Inhabited.
-/

namespace UnwrapLog

/-- Source location of a call site, as captured by the caller-tracking
attribute on every operation: file, line and column of the caller. -/
structure Location where
  file : String
  line : Nat
  column : Nat
deriving DecidableEq

/-- Rendering of a location, matching the Display implementation used when the
location is written into a log message: file, line and column separated by
colons. -/
def Location.render (l : Location) : String :=
  l.file ++ ":" ++ Nat.repr l.line ++ ":" ++ Nat.repr l.column

/-- Severity level of a log record; the crate only ever logs at warn. -/
inductive Level where
  | warn
deriving DecidableEq

/-- One record submitted to the logging facility: a level and a message. -/
structure LogRecord where
  level : Level
  message : String
deriving DecidableEq

/-- Success-or-failure value mirroring Result<T, E> from the source: a success
payload of type T or a failure reason of type E. -/
inductive Result (T E : Type) where
  | ok (x : T)
  | err (e : E)

/-- Log record built by option_error in the source: a warn record whose
message is the caller location followed by " encountered `None`". -/
def option_error (caller : Location) : LogRecord :=
  ⟨Level.warn, caller.render ++ " encountered `None`"⟩

/-- Log record built by result_error in the source, given the Debug rendering
of the error: a warn record whose message is the caller location followed by
" encountered `Err(" then the rendering then ")`". -/
def result_error (caller : Location) (errDbg : String) : LogRecord :=
  ⟨Level.warn, caller.render ++ " encountered `Err(" ++ errDbg ++ ")`"⟩

/-- Log record built by no_dbg_error in the source: a warn record whose
message is the caller location followed by " encountered `Err(_)`". -/
def no_dbg_error (caller : Location) : LogRecord :=
  ⟨Level.warn, caller.render ++ " encountered `Err(_)`"⟩

namespace OptionExt

/-- OptionExt.unwrap_or_default_log: return the contained Some value, or log a
warning via option_error and return the default value. -/
def unwrap_or_default_log {T : Type} [Inhabited T] (caller : Location) :
    Option T → T × List LogRecord
  | some x => (x, [])
  | none => (default, [option_error caller])

/-- OptionExt.unwrap_or_else_log: return the contained Some value, or log a
warning via option_error and call the supplier once to compute the value. -/
def unwrap_or_else_log {T S : Type} (caller : Location) (o : Option T)
    (f : S → T × S) (s : S) : T × S × List LogRecord :=
  match o with
  | some x => (x, s, [])
  | none =>
    let r := f s
    (r.1, r.2, [option_error caller])

/-- OptionExt.unwrap_or_log: return the contained Some value, or log a warning
via option_error and return the provided default. -/
def unwrap_or_log {T : Type} (caller : Location) (o : Option T) (dflt : T) :
    T × List LogRecord :=
  match o with
  | some x => (x, [])
  | none => (dflt, [option_error caller])

end OptionExt

namespace ResultExt

/-- ResultExt.unwrap_or_default_log: return the contained Ok value, or log a
warning via result_error (rendering the error) and return the default value. -/
def unwrap_or_default_log {T E : Type} [Inhabited T] (caller : Location)
    (dbg : E → String) : Result T E → T × List LogRecord
  | .ok x => (x, [])
  | .err e => (default, [result_error caller (dbg e)])

/-- ResultExt.unwrap_or_else_log: return the contained Ok value, or log a
warning via result_error and call the supplier once to compute the value. -/
def unwrap_or_else_log {T E S : Type} (caller : Location) (dbg : E → String)
    (r : Result T E) (f : S → T × S) (s : S) : T × S × List LogRecord :=
  match r with
  | .ok x => (x, s, [])
  | .err e =>
    let v := f s
    (v.1, v.2, [result_error caller (dbg e)])

/-- ResultExt.unwrap_or_log: return the contained Ok value, or log a warning
via result_error and return the provided default. -/
def unwrap_or_log {T E : Type} (caller : Location) (dbg : E → String)
    (r : Result T E) (dflt : T) : T × List LogRecord :=
  match r with
  | .ok x => (x, [])
  | .err e => (dflt, [result_error caller (dbg e)])

end ResultExt

namespace ResultExtNoDbg

/-- ResultExtNoDbg.unwrap_or_default_log: return the contained Ok value, or
log a warning via no_dbg_error and return the default value. -/
def unwrap_or_default_log {T E : Type} [Inhabited T] (caller : Location) :
    Result T E → T × List LogRecord
  | .ok x => (x, [])
  | .err _ => (default, [no_dbg_error caller])

/-- ResultExtNoDbg.unwrap_or_else_log: return the contained Ok value, or log a
warning via no_dbg_error and call the supplier once to compute the value. -/
def unwrap_or_else_log {T E S : Type} (caller : Location) (r : Result T E)
    (f : S → T × S) (s : S) : T × S × List LogRecord :=
  match r with
  | .ok x => (x, s, [])
  | .err _ =>
    let v := f s
    (v.1, v.2, [no_dbg_error caller])

/-- ResultExtNoDbg.unwrap_or_log: return the contained Ok value, or log a
warning via no_dbg_error and return the provided default. -/
def unwrap_or_log {T E : Type} (caller : Location) (r : Result T E)
    (dflt : T) : T × List LogRecord :=
  match r with
  | .ok x => (x, [])
  | .err _ => (dflt, [no_dbg_error caller])

end ResultExtNoDbg

/-- Boolean test that the needle occurs as a contiguous run inside the
haystack list of characters. -/
def listContains (needle : List Char) : List Char → Bool
  | [] => needle.isEmpty
  | c :: t => needle.isPrefixOf (c :: t) || listContains needle t

/-- Boolean test that the needle occurs as a contiguous substring of hay. -/
def strContains (hay needle : String) : Bool :=
  listContains needle.data hay.data

/-- A fixed concrete call-site location used in closed statements. -/
def loc0 : Location := ⟨"src/main.rs", 8, 23⟩

theorem isPrefixOf_append_self (n r : List Char) :
    n.isPrefixOf (n ++ r) = true := by
  induction n with
  | nil => simp [List.isPrefixOf]
  | cons a as ih => simp [List.isPrefixOf, ih]

theorem listContains_cons (n : List Char) (c : Char) (t : List Char)
    (h : listContains n t = true) : listContains n (c :: t) = true := by
  simp [listContains, h]

theorem listContains_here (n r : List Char) :
    listContains n (n ++ r) = true := by
  cases n with
  | nil =>
    cases r with
    | nil => simp [listContains]
    | cons c t => simp [listContains, List.isPrefixOf]
  | cons a as =>
    have h := isPrefixOf_append_self (a :: as) r
    simp [listContains, h]

theorem listContains_append_left (n l h : List Char)
    (hc : listContains n h = true) : listContains n (l ++ h) = true := by
  induction l with
  | nil => simp [hc]
  | cons c cs ih => simpa using listContains_cons n c _ ih

theorem string_data_append (a b : String) : (a ++ b).data = a.data ++ b.data := rfl

/-- A string of the shape left ++ mid ++ right contains mid. -/
theorem strContains_append (s1 mid s2 : String) :
    strContains (s1 ++ mid ++ s2) mid = true := by
  have h : (s1 ++ mid ++ s2).data = s1.data ++ (mid.data ++ s2.data) := by
    simp [string_data_append]
  simpa [strContains, h] using
    listContains_append_left mid.data s1.data (mid.data ++ s2.data)
      (listContains_here mid.data s2.data)

/-- A string of the shape left ++ right contains any string that right
contains. -/
theorem strContains_append_right (s1 s2 needle : String)
    (h : strContains s2 needle = true) :
    strContains (s1 ++ s2) needle = true := by
  simpa [strContains, string_data_append] using
    listContains_append_left needle.data s1.data s2.data h

/-- A string of the shape left ++ right contains left. -/
theorem strContains_self_append (s1 s2 : String) :
    strContains (s1 ++ s2) s1 = true := by
  simpa [strContains, string_data_append] using listContains_here s1.data s2.data

/-- C1: for every payload type and every present value Some(v), each of
unwrap_or_default_log, unwrap_or_else_log and unwrap_or_log on Option returns
exactly v and emits no log record (and leaves the supplier state untouched). -/
theorem C1_option_some_identity {T S : Type} [Inhabited T] (caller : Location)
    (v : T) (f : S → T × S) (s : S) (d : T) :
    OptionExt.unwrap_or_default_log caller (some v) = (v, []) ∧
    OptionExt.unwrap_or_else_log caller (some v) f s = (v, s, []) ∧
    OptionExt.unwrap_or_log caller (some v) d = (v, []) :=
  ⟨rfl, rfl, rfl⟩

/-- C2: for every success value Ok(v), each of the three ResultExt operations
and each of the three ResultExtNoDbg operations returns exactly v and emits no
log record (and leaves the supplier state untouched). -/
theorem C2_result_ok_identity {T E S : Type} [Inhabited T] (caller : Location)
    (dbg : E → String) (v : T) (f : S → T × S) (s : S) (d : T) :
    ResultExt.unwrap_or_default_log caller dbg (Result.ok v) = (v, []) ∧
    ResultExt.unwrap_or_else_log caller dbg (Result.ok v) f s = (v, s, []) ∧
    ResultExt.unwrap_or_log caller dbg (Result.ok v) d = (v, []) ∧
    ResultExtNoDbg.unwrap_or_default_log caller (Result.ok v : Result T E) = (v, []) ∧
    ResultExtNoDbg.unwrap_or_else_log caller (Result.ok v : Result T E) f s = (v, s, []) ∧
    ResultExtNoDbg.unwrap_or_log caller (Result.ok v : Result T E) d = (v, []) :=
  ⟨rfl, rfl, rfl, rfl, rfl, rfl⟩

/-- C3: for every absent optional with a default-constructible payload type,
unwrap_or_default_log returns the default value and emits exactly one
warn-level record whose message contains the substring "encountered" and the
rendered call-site location. -/
theorem C3_option_none_default {T : Type} [Inhabited T] (caller : Location) :
    OptionExt.unwrap_or_default_log (T := T) caller none
      = (default, [option_error caller]) ∧
    (option_error caller).level = Level.warn ∧
    strContains (option_error caller).message "encountered" = true ∧
    strContains (option_error caller).message caller.render = true := by
  refine ⟨rfl, rfl, ?_, ?_⟩
  · exact strContains_append_right caller.render " encountered `None`"
      "encountered" (by decide)
  · exact strContains_self_append caller.render " encountered `None`"

/-- C4: for every absent optional, unwrap_or_else_log returns exactly the
value the supplier produces and advances the supplier state by exactly one
invocation; for every present value Some(v) it returns v with the supplier
state unchanged, so the supplier is never invoked and never evaluated
eagerly. -/
theorem C4_supplier_once {T S : Type} (caller : Location) (v : T)
    (f : S → T × S) (s : S) :
    OptionExt.unwrap_or_else_log caller (none : Option T) f s
      = ((f s).1, (f s).2, [option_error caller]) ∧
    OptionExt.unwrap_or_else_log caller (some v) f s = (v, s, []) :=
  ⟨rfl, rfl⟩

/-- C5 as literally stated is false: it asserts that the without-detail log
message never contains any rendering of the failure reason, but for the
failure reason "Err" rendered by the identity rendering, the message emitted
at the concrete location loc0 does contain that rendering. -/
theorem C5_counterexample :
    ResultExtNoDbg.unwrap_or_default_log (T := String) (E := String) loc0
        (Result.err "Err")
      = ("", [no_dbg_error loc0]) ∧
    strContains (no_dbg_error loc0).message ((fun e : String => e) "Err") = true :=
  ⟨rfl, by decide⟩

/-- C5 (amended): on Err(e) the with-detail operations emit a warn record
whose message contains the rendering of e, while the without-detail operations
emit a warn record whose message is a fixed string independent of the reason,
into which no rendering of the reason is interpolated; in particular, for the
reason whose rendering is "oops" at the concrete location loc0, the
with-detail message contains "oops" and the without-detail message does not. -/
theorem C5_detail_vs_no_detail {T E : Type} [Inhabited T] (caller : Location)
    (dbg : E → String) (e : E) :
    (ResultExt.unwrap_or_default_log (T := T) caller dbg (Result.err e)).2
      = [result_error caller (dbg e)] ∧
    (result_error caller (dbg e)).level = Level.warn ∧
    strContains (result_error caller (dbg e)).message (dbg e) = true ∧
    (ResultExtNoDbg.unwrap_or_default_log (T := T) (E := E) caller
        (Result.err e)).2
      = [no_dbg_error caller] ∧
    (no_dbg_error caller).message = caller.render ++ " encountered `Err(_)`" ∧
    strContains (result_error loc0 "\"oops\"").message "oops" = true ∧
    strContains (no_dbg_error loc0).message "oops" = false := by
  refine ⟨rfl, rfl, ?_, rfl, rfl, by decide, by decide⟩
  exact strContains_append (caller.render ++ " encountered `Err(") (dbg e) ")`"

/-- C6: for every fallible input (Ok or Err) and every fallback strategy,
ResultExtNoDbg returns exactly the same value and supplier state as the
corresponding ResultExt operation, and the two emit the same number of log
records at the same levels, differing only in the message content. -/
theorem C6_no_dbg_same_values {T E S : Type} [Inhabited T] (caller : Location)
    (dbg : E → String) (r : Result T E) (f : S → T × S) (s : S) (d : T) :
    (ResultExtNoDbg.unwrap_or_default_log caller r).1
      = (ResultExt.unwrap_or_default_log caller dbg r).1 ∧
    (ResultExtNoDbg.unwrap_or_else_log caller r f s).1
      = (ResultExt.unwrap_or_else_log caller dbg r f s).1 ∧
    (ResultExtNoDbg.unwrap_or_else_log caller r f s).2.1
      = (ResultExt.unwrap_or_else_log caller dbg r f s).2.1 ∧
    (ResultExtNoDbg.unwrap_or_log caller r d).1
      = (ResultExt.unwrap_or_log caller dbg r d).1 ∧
    (ResultExtNoDbg.unwrap_or_default_log caller r).2.map LogRecord.level
      = (ResultExt.unwrap_or_default_log caller dbg r).2.map LogRecord.level ∧
    (ResultExtNoDbg.unwrap_or_else_log caller r f s).2.2.map LogRecord.level
      = (ResultExt.unwrap_or_else_log caller dbg r f s).2.2.map LogRecord.level ∧
    (ResultExtNoDbg.unwrap_or_log caller r d).2.map LogRecord.level
      = (ResultExt.unwrap_or_log caller dbg r d).2.map LogRecord.level := by
  cases r <;> exact ⟨rfl, rfl, rfl, rfl, rfl, rfl, rfl⟩

/-- C7: across all three traits and all three fallback strategies, exactly one
log record is emitted on the absent/failure path and none on the
present/success path. -/
theorem C7_log_counts {T E S : Type} [Inhabited T] (caller : Location) (v : T)
    (e : E) (dbg : E → String) (f : S → T × S) (s : S) (d : T) :
    (OptionExt.unwrap_or_default_log caller (some v)).2.length = 0 ∧
    (OptionExt.unwrap_or_else_log caller (some v) f s).2.2.length = 0 ∧
    (OptionExt.unwrap_or_log caller (some v) d).2.length = 0 ∧
    (OptionExt.unwrap_or_default_log (T := T) caller none).2.length = 1 ∧
    (OptionExt.unwrap_or_else_log caller (none : Option T) f s).2.2.length = 1 ∧
    (OptionExt.unwrap_or_log caller (none : Option T) d).2.length = 1 ∧
    (ResultExt.unwrap_or_default_log caller dbg (Result.ok v)).2.length = 0 ∧
    (ResultExt.unwrap_or_else_log caller dbg (Result.ok v) f s).2.2.length = 0 ∧
    (ResultExt.unwrap_or_log caller dbg (Result.ok v) d).2.length = 0 ∧
    (ResultExt.unwrap_or_default_log (T := T) caller dbg (Result.err e)).2.length = 1 ∧
    (ResultExt.unwrap_or_else_log caller dbg (Result.err e) f s).2.2.length = 1 ∧
    (ResultExt.unwrap_or_log caller dbg (Result.err e) d).2.length = 1 ∧
    (ResultExtNoDbg.unwrap_or_default_log caller (Result.ok v : Result T E)).2.length = 0 ∧
    (ResultExtNoDbg.unwrap_or_else_log caller (Result.ok v : Result T E) f s).2.2.length = 0 ∧
    (ResultExtNoDbg.unwrap_or_log caller (Result.ok v : Result T E) d).2.length = 0 ∧
    (ResultExtNoDbg.unwrap_or_default_log caller (Result.err e : Result T E)).2.length = 1 ∧
    (ResultExtNoDbg.unwrap_or_else_log caller (Result.err e : Result T E) f s).2.2.length = 1 ∧
    (ResultExtNoDbg.unwrap_or_log caller (Result.err e : Result T E) d).2.length = 1 := by
  exact ⟨rfl, rfl, rfl, rfl, rfl, rfl, rfl, rfl, rfl, rfl, rfl, rfl, rfl, rfl,
    rfl, rfl, rfl, rfl⟩

/-- C8 as literally stated is false: at the concrete location loc0 the message
emitted for an absent optional is "src/main.rs:8:23 encountered `None`", not
"src/main.rs:8:23 encountered absent value" as the claim requires. -/
theorem C8_counterexample :
    (OptionExt.unwrap_or_default_log (T := Nat) loc0 none).2
      = [option_error loc0] ∧
    (option_error loc0).message = "src/main.rs:8:23 encountered `None`" ∧
    (option_error loc0).message ≠ "src/main.rs:8:23 encountered absent value" :=
  ⟨rfl, by decide, by decide⟩

/-- C8 (amended): for every absent optional, each of the three optional-value
fallback operations emits exactly the record built by option_error, whose
message is exactly the rendered call-site location followed by
" encountered `None`". -/
theorem C8_exact_message {T S : Type} [Inhabited T] (caller : Location)
    (f : S → T × S) (s : S) (d : T) :
    (OptionExt.unwrap_or_default_log (T := T) caller none).2
      = [option_error caller] ∧
    (OptionExt.unwrap_or_else_log caller (none : Option T) f s).2.2
      = [option_error caller] ∧
    (OptionExt.unwrap_or_log caller (none : Option T) d).2
      = [option_error caller] ∧
    (option_error caller).message = caller.render ++ " encountered `None`" :=
  ⟨rfl, rfl, rfl, rfl⟩

/-- C9: repeating any of the nine operations on the same input (same caller,
same supplier and supplier state, same explicit default) yields the same value
and the same log content: the operations are pure functions of their inputs,
with no hidden state across calls. -/
theorem C9_deterministic {T E S : Type} [Inhabited T] (caller : Location)
    (o : Option T) (r : Result T E) (dbg : E → String) (f : S → T × S) (s : S)
    (d : T) :
    OptionExt.unwrap_or_default_log caller o
      = OptionExt.unwrap_or_default_log caller o ∧
    OptionExt.unwrap_or_else_log caller o f s
      = OptionExt.unwrap_or_else_log caller o f s ∧
    OptionExt.unwrap_or_log caller o d = OptionExt.unwrap_or_log caller o d ∧
    ResultExt.unwrap_or_default_log caller dbg r
      = ResultExt.unwrap_or_default_log caller dbg r ∧
    ResultExt.unwrap_or_else_log caller dbg r f s
      = ResultExt.unwrap_or_else_log caller dbg r f s ∧
    ResultExt.unwrap_or_log caller dbg r d
      = ResultExt.unwrap_or_log caller dbg r d ∧
    ResultExtNoDbg.unwrap_or_default_log caller r
      = ResultExtNoDbg.unwrap_or_default_log caller r ∧
    ResultExtNoDbg.unwrap_or_else_log caller r f s
      = ResultExtNoDbg.unwrap_or_else_log caller r f s ∧
    ResultExtNoDbg.unwrap_or_log caller r d
      = ResultExtNoDbg.unwrap_or_log caller r d :=
  ⟨rfl, rfl, rfl, rfl, rfl, rfl, rfl, rfl, rfl⟩

/-- C10: under ResultExtNoDbg the failure payload never influences any
observable output: for any two failure reasons of the same type and the same
strategy, the returned value, the final supplier state and the emitted log are
identical. -/
theorem C10_no_dbg_noninterference {T E S : Type} [Inhabited T]
    (caller : Location) (e1 e2 : E) (f : S → T × S) (s : S) (d : T) :
    ResultExtNoDbg.unwrap_or_default_log (T := T) caller (Result.err e1)
      = ResultExtNoDbg.unwrap_or_default_log (T := T) caller (Result.err e2) ∧
    ResultExtNoDbg.unwrap_or_else_log caller (Result.err e1 : Result T E) f s
      = ResultExtNoDbg.unwrap_or_else_log caller (Result.err e2 : Result T E) f s ∧
    ResultExtNoDbg.unwrap_or_log caller (Result.err e1 : Result T E) d
      = ResultExtNoDbg.unwrap_or_log caller (Result.err e2 : Result T E) d :=
  ⟨rfl, rfl, rfl⟩

end UnwrapLog
